import Mathlib

/-!
Shallow embedding of the sendly-go SDK (webhooks service in
src/unnamed/part_000; verify, sessions and templates services in
src/sendly/verify.go).

Each service operation is modelled as a pure function of
  * the behaviour of the shared request executor on the single HTTP call the
    operation can make, given as an `Except E Wire` value (the executor either
    fails with a transport error `e : E` or decodes the response body into the
    operation's wire type), and
  * the operation's own arguments.
The returned `Outcome` mirrors the Go `(\*T, error)` pair and additionally
records the list of requests handed to the executor (method, path, body), so
that "no network call is issued" is expressible as `calls = []`.

Go `map[string]interface{}` pass-through fields are modelled as association
lists with string-rendered values (the SDK never inspects them), and the
`float64` field `success_rate`, which is only copied, is modelled as `Rat`.
-/

set_option autoImplicit false

namespace Sendly

/-- Embeds Go `strings.HasPrefix s pre`. -/
def hasPrefix (s pre : String) : Bool :=
  pre.toList.isPrefixOf s.toList

/-- Error returned by a service operation: either a local validation failure
(the `errors.New` messages of the source) or an error propagated unchanged
from the request executor. -/
inductive SendlyError (E : Type) where
  | validation (msg : String)
  | transport (e : E)
deriving DecidableEq

/-- One HTTP request handed to the request executor, as recorded at the call
sites of `client.request` / `client.doRequest`: method, path and the optional
body value (of the per-operation body type `B`). -/
structure RequestRecord (B : Type) where
  method : String
  path : String
  body : Option B
deriving DecidableEq

/-- Result of a service operation returning a value: the Go `(\*T, error)`
pair together with the requests issued during the call. -/
structure Outcome (E R B : Type) where
  result : Option R
  error : Option (SendlyError E)
  calls : List (RequestRecord B)
deriving DecidableEq

/-- Result of a service operation returning only `error` (Delete,
RetryDelivery). -/
structure VoidOutcome (E B : Type) where
  error : Option (SendlyError E)
  calls : List (RequestRecord B)
deriving DecidableEq

/-- The shared request/decode pattern in every operation body:
declare the response target, run the executor once; on error return
`(nil, err)`, on success transform the decoded wire value and return
`(&result, nil)`. Exactly one request is issued either way. -/
def runSimple {E W R B : Type} (exec : Except E W) (tf : W → R)
    (rec : RequestRecord B) : Outcome E R B :=
  match exec with
  | .error e => ⟨none, some (.transport e), [rec]⟩
  | .ok w => ⟨some (tf w), none, [rec]⟩

/-- The shared pattern for operations that return only an error. -/
def runVoid {E B : Type} (exec : Except E Unit) (rec : RequestRecord B) :
    VoidOutcome E B :=
  match exec with
  | .error e => ⟨some (.transport e), [rec]⟩
  | .ok _ => ⟨none, [rec]⟩

/-! Webhook wire and SDK types (src/unnamed/part_000). -/

/-- Wire (snake_case) webhook payload: `webhookAPIResponse` in the source.
`metadata` (`map[string]interface{}`) is modelled as an association list and
`success_rate` (`float64`, only ever copied) as `Rat`. -/
structure WebhookAPIResponse where
  id : String
  url : String
  events : List String
  description : Option String
  mode : String
  isActive : Bool
  failureCount : Int
  lastFailureAt : Option String
  circuitState : String
  circuitOpenedAt : Option String
  apiVersion : String
  metadata : List (String × String)
  createdAt : String
  updatedAt : String
  totalDeliveries : Int
  successfulDeliveries : Int
  successRate : Rat
  lastDeliveryAt : Option String
  secret : String
deriving DecidableEq

/-- Wire payload for a webhook delivery: `webhookDeliveryAPIResponse`. -/
structure WebhookDeliveryAPIResponse where
  id : String
  webhookID : String
  eventID : String
  eventType : String
  attemptNumber : Int
  maxAttempts : Int
  status : String
  responseStatusCode : Option Int
  responseTimeMs : Option Int
  errorMessage : Option String
  errorCode : Option String
  nextRetryAt : Option String
  createdAt : String
  deliveredAt : Option String
deriving DecidableEq

/-- Go `type WebhookMode string`; the cast `WebhookMode(s)` is the identity. -/
abbrev WebhookMode := String

/-- Modelled from the spec: the constant `WebhookModeAll` is declared outside
src/; the spec states that a missing `mode` defaults to "all". -/
def WebhookModeAll : WebhookMode := "all"

/-- Go `type CircuitState string`; the cast is the identity. -/
abbrev CircuitState := String

/-- Go `type DeliveryStatus string`; the cast is the identity. -/
abbrev DeliveryStatus := String

/-- Modelled from the spec: the SDK `Webhook` type is declared outside src/.
Its fields are exactly those assigned by `transformWebhook` (src/unnamed/
part_000 lines 62-81); per the spec the one-time secret appears only on the
created-response wrapper, so `Webhook` has no secret field. -/
structure Webhook where
  id : String
  url : String
  events : List String
  description : Option String
  mode : WebhookMode
  isActive : Bool
  failureCount : Int
  lastFailureAt : Option String
  circuitState : CircuitState
  circuitOpenedAt : Option String
  apiVersion : String
  metadata : List (String × String)
  createdAt : String
  updatedAt : String
  totalDeliveries : Int
  successfulDeliveries : Int
  successRate : Rat
  lastDeliveryAt : Option String
deriving DecidableEq

/-- Modelled from the spec: the SDK `WebhookDelivery` type is declared outside
src/; fields exactly as assigned by `transformDelivery`. -/
structure WebhookDelivery where
  id : String
  webhookID : String
  eventID : String
  eventType : String
  attemptNumber : Int
  maxAttempts : Int
  status : DeliveryStatus
  responseStatusCode : Option Int
  responseTimeMs : Option Int
  errorMessage : Option String
  errorCode : Option String
  nextRetryAt : Option String
  createdAt : String
  deliveredAt : Option String
deriving DecidableEq

/-- Embeds `transformWebhook` (src/unnamed/part_000 lines 56-82): converts the
API response to the SDK type, defaulting an empty `mode` to `WebhookModeAll`;
the wire `secret` is not copied. -/
def transformWebhook (api : WebhookAPIResponse) : Webhook :=
  let mode : WebhookMode := api.mode
  let mode := if mode = "" then WebhookModeAll else mode
  { id := api.id
    url := api.url
    events := api.events
    description := api.description
    mode := mode
    isActive := api.isActive
    failureCount := api.failureCount
    lastFailureAt := api.lastFailureAt
    circuitState := api.circuitState
    circuitOpenedAt := api.circuitOpenedAt
    apiVersion := api.apiVersion
    metadata := api.metadata
    createdAt := api.createdAt
    updatedAt := api.updatedAt
    totalDeliveries := api.totalDeliveries
    successfulDeliveries := api.successfulDeliveries
    successRate := api.successRate
    lastDeliveryAt := api.lastDeliveryAt }

/-- Embeds `transformDelivery` (src/unnamed/part_000 lines 84-102). -/
def transformDelivery (api : WebhookDeliveryAPIResponse) : WebhookDelivery :=
  { id := api.id
    webhookID := api.webhookID
    eventID := api.eventID
    eventType := api.eventType
    attemptNumber := api.attemptNumber
    maxAttempts := api.maxAttempts
    status := api.status
    responseStatusCode := api.responseStatusCode
    responseTimeMs := api.responseTimeMs
    errorMessage := api.errorMessage
    errorCode := api.errorCode
    nextRetryAt := api.nextRetryAt
    createdAt := api.createdAt
    deliveredAt := api.deliveredAt }

/-- Modelled from the spec: `CreateWebhookRequest` is declared outside src/.
`Create` validates only `url` and `events`; the remaining optional fields
ride along in the JSON body. -/
structure CreateWebhookRequest where
  url : String
  events : List String
  description : Option String
  mode : Option String
  metadata : List (String × String)
deriving DecidableEq

/-- Modelled from the spec: `UpdateWebhookRequest` is declared outside src/;
its `URL` field is a `\*string` (the source checks `req.URL != nil`), and the
other fields are optional per the spec's partial-update contract. -/
structure UpdateWebhookRequest where
  url : Option String
  events : Option (List String)
  description : Option String
  isActive : Option Bool
  metadata : List (String × String)
deriving DecidableEq

/-- Modelled from the spec: `WebhookCreatedResponse` is declared outside src/;
per `Create` (lines 119-122) it wraps the transformed webhook together with
the one-time plaintext secret taken from the wire payload. -/
structure WebhookCreatedResponse where
  webhook : Webhook
  secret : String
deriving DecidableEq

/-- Modelled from the spec: `WebhookTestResult` is declared outside src/; the
server response is passed through untransformed, so it is modelled as an
opaque payload. -/
structure WebhookTestResult where
  payload : String
deriving DecidableEq

/-- Modelled from the spec: `WebhookSecretRotation` is declared outside src/;
fields exactly as assigned by `RotateSecret` (lines 214-219). -/
structure WebhookSecretRotation where
  webhook : Webhook
  newSecret : String
  oldSecretExpiresAt : String
  message : String
deriving DecidableEq

/-- The anonymous `rawResp` wire struct inside `RotateSecret`
(lines 203-208). -/
structure RotateSecretWire where
  webhook : WebhookAPIResponse
  newSecret : String
  oldSecretExpiresAt : String
  message : String
deriving DecidableEq

/-- One entry of the anonymous events wire struct inside `ListEventTypes`
(lines 255-259); `ty` stands for the wire field `type`. -/
structure EventTypeWire where
  ty : String
deriving DecidableEq

/-- The anonymous response wire struct inside `ListEventTypes`. -/
structure EventTypesWire where
  events : List EventTypeWire
deriving DecidableEq

/-! Webhook service operations (src/unnamed/part_000 lines 104-270). -/

/-- Embeds `WebhooksService.Create` (lines 105-123): validates the URL and the
event list before issuing `POST /webhooks`; on success wraps the transformed
webhook with the wire secret. -/
def WebhooksService.create {E : Type} (exec : Except E WebhookAPIResponse)
    (req : CreateWebhookRequest) :
    Outcome E WebhookCreatedResponse CreateWebhookRequest :=
  if req.url = "" ∨ hasPrefix req.url "https://" = false then
    ⟨none, some (.validation "webhook URL must be HTTPS"), []⟩
  else if req.events.length = 0 then
    ⟨none, some (.validation "at least one event type is required"), []⟩
  else
    runSimple exec (fun apiResp => ⟨transformWebhook apiResp, apiResp.secret⟩)
      ⟨"POST", "/webhooks", some req⟩

/-- Embeds `WebhooksService.List` (lines 126-137). -/
def WebhooksService.list {E : Type} (exec : Except E (List WebhookAPIResponse)) :
    Outcome E (List Webhook) Unit :=
  runSimple exec (fun apiResp => apiResp.map transformWebhook)
    ⟨"GET", "/webhooks", none⟩

/-- Embeds `WebhooksService.Get` (lines 140-152): requires a `whk_`-prefixed
id before issuing `GET /webhooks/{id}`. -/
def WebhooksService.get {E : Type} (exec : Except E WebhookAPIResponse)
    (webhookID : String) : Outcome E Webhook Unit :=
  if webhookID = "" ∨ hasPrefix webhookID "whk_" = false then
    ⟨none, some (.validation "invalid webhook ID format"), []⟩
  else
    runSimple exec transformWebhook ⟨"GET", "/webhooks/" ++ webhookID, none⟩

/-- Embeds `WebhooksService.Update` (lines 155-171): requires a `whk_`-prefixed
id and, when a URL is supplied, an HTTPS URL, before issuing
`PATCH /webhooks/{id}`. -/
def WebhooksService.update {E : Type} (exec : Except E WebhookAPIResponse)
    (webhookID : String) (req : UpdateWebhookRequest) :
    Outcome E Webhook UpdateWebhookRequest :=
  if webhookID = "" ∨ hasPrefix webhookID "whk_" = false then
    ⟨none, some (.validation "invalid webhook ID format"), []⟩
  else if (match req.url with
           | some u => ! hasPrefix u "https://"
           | none => false) = true then
    ⟨none, some (.validation "webhook URL must be HTTPS"), []⟩
  else
    runSimple exec transformWebhook
      ⟨"PATCH", "/webhooks/" ++ webhookID, some req⟩

/-- Embeds `WebhooksService.Delete` (lines 174-180). -/
def WebhooksService.delete {E : Type} (exec : Except E Unit)
    (webhookID : String) : VoidOutcome E Unit :=
  if webhookID = "" ∨ hasPrefix webhookID "whk_" = false then
    ⟨some (.validation "invalid webhook ID format"), []⟩
  else
    runVoid exec ⟨"DELETE", "/webhooks/" ++ webhookID, none⟩

/-- Embeds `WebhooksService.Test` (lines 183-194): the response is passed
through untransformed. -/
def WebhooksService.test {E : Type} (exec : Except E WebhookTestResult)
    (webhookID : String) : Outcome E WebhookTestResult Unit :=
  if webhookID = "" ∨ hasPrefix webhookID "whk_" = false then
    ⟨none, some (.validation "invalid webhook ID format"), []⟩
  else
    runSimple exec (fun r => r)
      ⟨"POST", "/webhooks/" ++ webhookID ++ "/test", none⟩

/-- Embeds `WebhooksService.RotateSecret` (lines 197-220): the rotation result
carries the transformed webhook and the wire `new_secret`,
`old_secret_expires_at` and `message` verbatim. -/
def WebhooksService.rotateSecret {E : Type} (exec : Except E RotateSecretWire)
    (webhookID : String) : Outcome E WebhookSecretRotation Unit :=
  if webhookID = "" ∨ hasPrefix webhookID "whk_" = false then
    ⟨none, some (.validation "invalid webhook ID format"), []⟩
  else
    runSimple exec
      (fun raw => ⟨transformWebhook raw.webhook, raw.newSecret,
        raw.oldSecretExpiresAt, raw.message⟩)
      ⟨"POST", "/webhooks/" ++ webhookID ++ "/rotate-secret", none⟩

/-- Embeds `WebhooksService.GetDeliveries` (lines 223-238). -/
def WebhooksService.getDeliveries {E : Type}
    (exec : Except E (List WebhookDeliveryAPIResponse)) (webhookID : String) :
    Outcome E (List WebhookDelivery) Unit :=
  if webhookID = "" ∨ hasPrefix webhookID "whk_" = false then
    ⟨none, some (.validation "invalid webhook ID format"), []⟩
  else
    runSimple exec (fun apiResp => apiResp.map transformDelivery)
      ⟨"GET", "/webhooks/" ++ webhookID ++ "/deliveries", none⟩

/-- Embeds `WebhooksService.RetryDelivery` (lines 241-251): validates the
webhook id (`whk_`) and then the delivery id (`del_`) before issuing
`POST /webhooks/{id}/deliveries/{deliveryID}/retry`. -/
def WebhooksService.retryDelivery {E : Type} (exec : Except E Unit)
    (webhookID deliveryID : String) : VoidOutcome E Unit :=
  if webhookID = "" ∨ hasPrefix webhookID "whk_" = false then
    ⟨some (.validation "invalid webhook ID format"), []⟩
  else if deliveryID = "" ∨ hasPrefix deliveryID "del_" = false then
    ⟨some (.validation "invalid delivery ID format"), []⟩
  else
    runVoid exec
      ⟨"POST", "/webhooks/" ++ webhookID ++ "/deliveries/" ++ deliveryID
        ++ "/retry", none⟩

/-- Embeds `WebhooksService.ListEventTypes` (lines 254-270): flattens the
`{events: [{type}]}` wire payload into the list of type strings. -/
def WebhooksService.listEventTypes {E : Type} (exec : Except E EventTypesWire) :
    Outcome E (List String) Unit :=
  runSimple exec (fun resp => resp.events.map (fun e => e.ty))
    ⟨"GET", "/webhooks/event-types", none⟩

/-! Verify service types (src/sendly/verify.go lines 21-126). -/

/-- Embeds `SendVerificationRequest` (lines 22-29); `to'` stands for the wire
field `to`, a Lean keyword. -/
structure SendVerificationRequest where
  to' : String
  templateID : String
  profileID : String
  appName : String
  timeoutSecs : Int
  codeLength : Int
deriving DecidableEq

/-- Embeds `SendVerificationResponse` (lines 32-40). -/
structure SendVerificationResponse where
  id : String
  status : String
  phone : String
  expiresAt : String
  sandbox : Bool
  sandboxCode : String
  message : String
deriving DecidableEq

/-- Embeds `CheckVerificationRequest` (lines 43-45). -/
structure CheckVerificationRequest where
  code : String
deriving DecidableEq

/-- Embeds `CheckVerificationResponse` (lines 48-54). -/
structure CheckVerificationResponse where
  id : String
  status : String
  phone : String
  verifiedAt : String
  remainingAttempts : Int
deriving DecidableEq

/-- Embeds `Verification` (lines 57-71). -/
structure Verification where
  id : String
  status : String
  phone : String
  deliveryStatus : String
  attempts : Int
  maxAttempts : Int
  expiresAt : String
  verifiedAt : String
  createdAt : String
  sandbox : Bool
  appName : String
  templateID : String
  profileID : String
deriving DecidableEq

/-- Embeds `VerificationListOptions` (lines 74-77). -/
structure VerificationListOptions where
  limit : Int
  status : String
deriving DecidableEq

/-- The anonymous pagination struct inside `VerificationListResponse`
(lines 82-85). -/
structure VerifyPagination where
  limit : Int
  hasMore : Bool
deriving DecidableEq

/-- Embeds `VerificationListResponse` (lines 80-86). -/
structure VerificationListResponse where
  verifications : List Verification
  pagination : VerifyPagination
deriving DecidableEq

/-- Embeds `CreateSessionRequest` (lines 89-95); `metadata` as an
association list. -/
structure CreateSessionRequest where
  successURL : String
  cancelURL : String
  brandName : String
  brandColor : String
  metadata : List (String × String)
deriving DecidableEq

/-- Embeds `VerifySession` (lines 98-112). -/
structure VerifySession where
  id : String
  url : String
  status : String
  successURL : String
  cancelURL : String
  brandName : String
  brandColor : String
  phone : String
  verificationID : String
  token : String
  metadata : List (String × String)
  expiresAt : String
  createdAt : String
deriving DecidableEq

/-- Embeds `ValidateSessionRequest` (lines 115-117). -/
structure ValidateSessionRequest where
  token : String
deriving DecidableEq

/-- Embeds `ValidateSessionResponse` (lines 120-126). -/
structure ValidateSessionResponse where
  valid : Bool
  sessionID : String
  phone : String
  verifiedAt : String
  metadata : List (String × String)
deriving DecidableEq

/-! Template service types (src/sendly/verify.go, templates part,
lines 223-269). -/

/-- Embeds `TemplateVariable` (lines 224-228); `ty` stands for the wire
field `type`. -/
structure TemplateVariable where
  key : String
  ty : String
  fallback : String
deriving DecidableEq

/-- Embeds `Template` (lines 231-243); `vars` stands for the field
`Variables`, since `variables` is a Lean keyword. -/
structure Template where
  id : String
  name : String
  text : String
  vars : List TemplateVariable
  isPreset : Bool
  presetSlug : String
  status : String
  version : Int
  publishedAt : String
  createdAt : String
  updatedAt : String
deriving DecidableEq

/-- Embeds `TemplateListResponse` (lines 246-248). -/
structure TemplateListResponse where
  templates : List Template
deriving DecidableEq

/-- Embeds `CreateTemplateRequest` (lines 251-254). -/
structure CreateTemplateRequest where
  name : String
  text : String
deriving DecidableEq

/-- Embeds `UpdateTemplateRequest` (lines 257-260): both fields are plain Go
strings tagged `omitempty` (not pointers). -/
structure UpdateTemplateRequest where
  name : String
  text : String
deriving DecidableEq

/-- Embeds `TemplatePreview` (lines 263-269); `vars` stands for the field
`Variables`. -/
structure TemplatePreview where
  id : String
  name : String
  originalText : String
  previewText : String
  vars : List TemplateVariable
deriving DecidableEq

/-! Query-string encoding used by `VerifyService.List`: Go's
`net/url.Values.Set` + `Values.Encode`, which sorts keys and percent-encodes
keys and values (`QueryEscape`: bytes other than ASCII alphanumerics and
`-`, `_`, `.`, `~` are escaped; the space byte becomes `+`; other bytes
become `%XX` with upper-case hex over the UTF-8 encoding). -/

/-- Upper-case hexadecimal digit for `n < 16`. -/
def hexDigitUpper (n : Nat) : Char :=
  if n < 10 then Char.ofNat (48 + n) else Char.ofNat (55 + n)

/-- The UTF-8 bytes of a character (as `Nat`s below 256). -/
def utf8Bytes (c : Char) : List Nat :=
  let n := c.toNat
  if n < 128 then [n]
  else if n < 2048 then [192 + n / 64, 128 + n % 64]
  else if n < 65536 then [224 + n / 4096, 128 + (n / 64) % 64, 128 + n % 64]
  else [240 + n / 262144, 128 + (n / 4096) % 64, 128 + (n / 64) % 64,
    128 + n % 64]

/-- Characters `QueryEscape` leaves unescaped (ASCII alphanumerics and
`-`, `_`, `.`, `~`). -/
def isUnreservedQueryChar (c : Char) : Bool :=
  c.isAlphanum || c = '-' || c = '_' || c = '.' || c = '~'

/-- Percent-encoding of one character under `url.QueryEscape`. -/
def queryEscapeChar (c : Char) : String :=
  if isUnreservedQueryChar c then String.singleton c
  else if c = ' ' then "+"
  else String.join ((utf8Bytes c).map fun b =>
    "%" ++ String.singleton (hexDigitUpper (b / 16))
      ++ String.singleton (hexDigitUpper (b % 16)))

/-- Embeds Go `url.QueryEscape`. -/
def queryEscape (s : String) : String :=
  String.join (s.toList.map queryEscapeChar)

/-- Lexicographic byte-order comparison on strings (the order used by
`sort.Strings` inside `url.Values.Encode`; UTF-8 byte order coincides with
code-point order). -/
def strLe (a b : String) : Bool :=
  go a.toList b.toList
where
  go : List Char → List Char → Bool
    | [], _ => true
    | _ :: _, [] => false
    | x :: xs, y :: ys =>
      if x.toNat < y.toNat then true
      else if y.toNat < x.toNat then false
      else go xs ys

/-- Insert a key/value pair into a key-sorted parameter list. -/
def insertByKey (p : String × String) :
    List (String × String) → List (String × String)
  | [] => [p]
  | q :: rest =>
    if strLe p.1 q.1 then p :: q :: rest else q :: insertByKey p rest

/-- Sort a parameter list by key (insertion sort; `url.Values.Encode` emits
parameters in sorted key order). -/
def sortByKey : List (String × String) → List (String × String)
  | [] => []
  | p :: rest => insertByKey p (sortByKey rest)

/-- Embeds `url.Values.Encode`: parameters in sorted key order, each rendered
`key=value` with both sides query-escaped, joined by `&`. -/
def encodeValues (params : List (String × String)) : String :=
  String.intercalate "&"
    ((sortByKey params).map fun kv => queryEscape kv.1 ++ "=" ++ queryEscape kv.2)

/-! Verify, sessions and template service operations
(src/sendly/verify.go). -/

/-- Embeds `SessionsService.Create` (lines 129-136). -/
def SessionsService.create {E : Type} (exec : Except E VerifySession)
    (req : CreateSessionRequest) : Outcome E VerifySession CreateSessionRequest :=
  runSimple exec (fun r => r) ⟨"POST", "/verify/sessions", some req⟩

/-- Embeds `SessionsService.Validate` (lines 139-146). -/
def SessionsService.validate {E : Type} (exec : Except E ValidateSessionResponse)
    (req : ValidateSessionRequest) :
    Outcome E ValidateSessionResponse ValidateSessionRequest :=
  runSimple exec (fun r => r) ⟨"POST", "/verify/sessions/validate", some req⟩

/-- Embeds `VerifyService.Send` (lines 149-156). -/
def VerifyService.send {E : Type} (exec : Except E SendVerificationResponse)
    (req : SendVerificationRequest) :
    Outcome E SendVerificationResponse SendVerificationRequest :=
  runSimple exec (fun r => r) ⟨"POST", "/verify", some req⟩

/-- Embeds `VerifyService.Resend` (lines 159-166): no id validation; the id is
interpolated into the path. -/
def VerifyService.resend {E : Type} (exec : Except E SendVerificationResponse)
    (id : String) : Outcome E SendVerificationResponse Unit :=
  runSimple exec (fun r => r) ⟨"POST", "/verify/" ++ id ++ "/resend", none⟩

/-- Embeds `VerifyService.Check` (lines 169-176): no id validation. -/
def VerifyService.check {E : Type} (exec : Except E CheckVerificationResponse)
    (id : String) (req : CheckVerificationRequest) :
    Outcome E CheckVerificationResponse CheckVerificationRequest :=
  runSimple exec (fun r => r) ⟨"POST", "/verify/" ++ id ++ "/check", some req⟩

/-- Embeds `VerifyService.Get` (lines 179-186): no id validation. -/
def VerifyService.get {E : Type} (exec : Except E Verification) (id : String) :
    Outcome E Verification Unit :=
  runSimple exec (fun r => r) ⟨"GET", "/verify/" ++ id, none⟩

/-- Embeds the path construction of `VerifyService.List` (lines 190-202):
`limit` is added only when positive, `status` only when non-empty, and the
query string only when at least one parameter is present. -/
def VerifyService.listPath (opts : Option VerificationListOptions) : String :=
  match opts with
  | none => "/verify"
  | some o =>
    let params :=
      (if o.limit > 0 then [("limit", toString o.limit)] else []) ++
      (if o.status = "" then [] else [("status", o.status)])
    if params.length > 0 then "/verify" ++ "?" ++ encodeValues params
    else "/verify"

/-- Embeds `VerifyService.List` (lines 189-210). -/
def VerifyService.list {E : Type} (exec : Except E VerificationListResponse)
    (opts : Option VerificationListOptions) :
    Outcome E VerificationListResponse Unit :=
  runSimple exec (fun r => r) ⟨"GET", VerifyService.listPath opts, none⟩

/-- Embeds `TemplatesService.List` (lines 272-279). -/
def TemplatesService.list {E : Type} (exec : Except E TemplateListResponse) :
    Outcome E TemplateListResponse Unit :=
  runSimple exec (fun r => r) ⟨"GET", "/templates", none⟩

/-- Embeds `TemplatesService.Presets` (lines 282-289). -/
def TemplatesService.presets {E : Type} (exec : Except E TemplateListResponse) :
    Outcome E TemplateListResponse Unit :=
  runSimple exec (fun r => r) ⟨"GET", "/templates/presets", none⟩

/-- Embeds `TemplatesService.Get` (lines 292-299): no id validation. -/
def TemplatesService.get {E : Type} (exec : Except E Template) (id : String) :
    Outcome E Template Unit :=
  runSimple exec (fun r => r) ⟨"GET", "/templates/" ++ id, none⟩

/-- Embeds `TemplatesService.Create` (lines 302-309). -/
def TemplatesService.create {E : Type} (exec : Except E Template)
    (req : CreateTemplateRequest) : Outcome E Template CreateTemplateRequest :=
  runSimple exec (fun r => r) ⟨"POST", "/templates", some req⟩

/-- Embeds `TemplatesService.Update` (lines 312-319): no id validation; the
request value is handed to the executor as the body. -/
def TemplatesService.update {E : Type} (exec : Except E Template) (id : String)
    (req : UpdateTemplateRequest) : Outcome E Template UpdateTemplateRequest :=
  runSimple exec (fun r => r) ⟨"PATCH", "/templates/" ++ id, some req⟩

/-- Embeds `TemplatesService.Publish` (lines 322-329): no id validation. -/
def TemplatesService.publish {E : Type} (exec : Except E Template) (id : String) :
    Outcome E Template Unit :=
  runSimple exec (fun r => r) ⟨"POST", "/templates/" ++ id ++ "/publish", none⟩

/-- Embeds the body construction of `TemplatesService.Preview`
(lines 333-336): the body map is empty when `variables` is nil and holds the
`variables` key (even for an empty map) otherwise. -/
def previewBody (vars : Option (List (String × String))) :
    List (String × List (String × String)) :=
  match vars with
  | none => []
  | some m => [("variables", m)]

/-- Embeds `TemplatesService.Preview` (lines 332-344): no id validation; the
constructed body map is handed to the executor. -/
def TemplatesService.preview {E : Type} (exec : Except E TemplatePreview)
    (id : String) (vars : Option (List (String × String))) :
    Outcome E TemplatePreview (List (String × List (String × String))) :=
  runSimple exec (fun r => r)
    ⟨"POST", "/templates/" ++ id ++ "/preview", some (previewBody vars)⟩

/-- Embeds `TemplatesService.Delete` (lines 347-349): no id validation. -/
def TemplatesService.delete {E : Type} (exec : Except E Unit) (id : String) :
    VoidOutcome E Unit :=
  runVoid exec ⟨"DELETE", "/templates/" ++ id, none⟩

/-- Embeds the JSON encoding of `UpdateTemplateRequest` under its struct tags
`name,omitempty` and `text,omitempty` (lines 257-260): `encoding/json` omits
a plain string field exactly when its value is the empty string, so the
encoded body is the association list below. -/
def encodeUpdateTemplateRequest (r : UpdateTemplateRequest) :
    List (String × String) :=
  (if r.name = "" then [] else [("name", r.name)]) ++
  (if r.text = "" then [] else [("text", r.text)])

/-! Concrete sample values used to instantiate universally quantified
statements. -/

/-- A concrete wire webhook payload. -/
def sampleWebhookWire : WebhookAPIResponse :=
  { id := "whk_1", url := "https://example.com/hook",
    events := ["sms.delivered"], description := none, mode := "",
    isActive := true, failureCount := 0, lastFailureAt := none,
    circuitState := "closed", circuitOpenedAt := none,
    apiVersion := "2024-01-01", metadata := [], createdAt := "2024-01-01",
    updatedAt := "2024-01-01", totalDeliveries := 0,
    successfulDeliveries := 0, successRate := 0, lastDeliveryAt := none,
    secret := "s_onetime" }

/-- A concrete rotate-secret wire payload with a non-empty new secret. -/
def sampleRotateWire : RotateSecretWire :=
  { webhook := sampleWebhookWire, newSecret := "s_new",
    oldSecretExpiresAt := "2024-02-01", message := "rotated" }

/-- A concrete rotate-secret wire payload whose `new_secret` is empty. -/
def sampleRotateWireEmptySecret : RotateSecretWire :=
  { webhook := sampleWebhookWire, newSecret := "",
    oldSecretExpiresAt := "2024-02-01", message := "rotated" }

/-- A concrete update request supplying no field. -/
def sampleUpdateWebhookReq : UpdateWebhookRequest :=
  { url := none, events := none, description := none, isActive := none,
    metadata := [] }

/-- A concrete test result payload. -/
def sampleTestResult : WebhookTestResult := { payload := "ok" }

/-- A concrete create request whose URL is not HTTPS. -/
def badCreateReq : CreateWebhookRequest :=
  { url := "http://example.com/hook", events := ["sms.delivered"],
    description := none, mode := none, metadata := [] }

/-- A concrete create request that passes validation. -/
def goodCreateReq : CreateWebhookRequest :=
  { url := "https://example.com/hook", events := ["sms.delivered"],
    description := none, mode := none, metadata := [] }

/-- A concrete verification send request. -/
def sampleSendReq : SendVerificationRequest :=
  { to' := "+15550100", templateID := "", profileID := "", appName := "",
    timeoutSecs := 0, codeLength := 0 }

/-- A concrete verification check request. -/
def sampleCheckReq : CheckVerificationRequest := { code := "123456" }

/-- A concrete hosted-session create request. -/
def sampleSessionReq : CreateSessionRequest :=
  { successURL := "https://example.com/ok", cancelURL := "", brandName := "",
    brandColor := "", metadata := [] }

/-- A concrete session validate request. -/
def sampleValidateReq : ValidateSessionRequest := { token := "tok" }

/-- A concrete template create request. -/
def sampleCreateTemplateReq : CreateTemplateRequest :=
  { name := "welcome", text := "Hi" }

/-- A concrete template update request. -/
def sampleUpdateTemplateReq : UpdateTemplateRequest := { name := "", text := "" }

/-- All-or-nothing contract of an operation outcome: a result with no error,
or no result with an error. -/
def allOrNothing {E R B : Type} (o : Outcome E R B) : Prop :=
  (o.result.isSome = true ∧ o.error = none) ∨
  (o.result = none ∧ o.error.isSome = true)

/-- No-swallowing contract of an outcome against an executor that failed with
`e`: the operation returns exactly that error as a transport error, unless
local validation already failed, in which case the executor was never invoked
(no request recorded) and the validation error is returned instead. -/
def returnsError {E R B : Type} (o : Outcome E R B) (e : E) : Prop :=
  o.error = some (.transport e) ∨
  (o.calls = [] ∧ ∃ msg, o.error = some (.validation msg))

/-- No-swallowing contract for the error-only operations. -/
def returnsErrorVoid {E B : Type} (o : VoidOutcome E B) (e : E) : Prop :=
  o.error = some (.transport e) ∨
  (o.calls = [] ∧ ∃ msg, o.error = some (.validation msg))

/-! Helper lemmas. -/

theorem allOrNothing_runSimple {E W R B : Type} (exec : Except E W)
    (tf : W → R) (rec : RequestRecord B) :
    allOrNothing (runSimple exec tf rec) := by
  cases exec <;> simp [allOrNothing, runSimple]

theorem allOrNothing_validationFail {E R B : Type} (msg : String)
    (cs : List (RequestRecord B)) :
    allOrNothing (⟨none, some (.validation msg), cs⟩ : Outcome E R B) :=
  Or.inr ⟨rfl, rfl⟩

/-! Claim theorems. -/

/-- C1: every webhook Create request whose url is empty or does not start
with "https://", and every Create request whose events list is empty, makes
Create return a validation error with no result and with no request handed to
the executor. -/
theorem create_validation_no_network {E : Type}
    (exec : Except E WebhookAPIResponse) (req : CreateWebhookRequest)
    (h : req.url = "" ∨ hasPrefix req.url "https://" = false ∨
      req.events = []) :
    (WebhooksService.create exec req).result = none ∧
    (∃ msg, (WebhooksService.create exec req).error =
      some (.validation msg)) ∧
    (WebhooksService.create exec req).calls = [] := by
  unfold WebhooksService.create
  rcases h with h | h | h
  · rw [if_pos (Or.inl h)]
    exact ⟨rfl, ⟨_, rfl⟩, rfl⟩
  · rw [if_pos (Or.inr h)]
    exact ⟨rfl, ⟨_, rfl⟩, rfl⟩
  · by_cases hb : req.url = "" ∨ hasPrefix req.url "https://" = false
    · rw [if_pos hb]
      exact ⟨rfl, ⟨_, rfl⟩, rfl⟩
    · rw [if_neg hb, if_pos (by simp [h])]
      exact ⟨rfl, ⟨_, rfl⟩, rfl⟩

/-- Witness for C1 at a concrete non-HTTPS create request. -/
theorem create_validation_no_network_witness :
    (WebhooksService.create (E := String) (Except.ok sampleWebhookWire)
      badCreateReq).result = none ∧
    (WebhooksService.create (E := String) (Except.ok sampleWebhookWire)
      badCreateReq).calls = [] :=
  ⟨(create_validation_no_network _ badCreateReq
      (Or.inr (Or.inl (by decide)))).1,
   (create_validation_no_network _ badCreateReq
      (Or.inr (Or.inl (by decide)))).2.2⟩

/-- C2: every id-taking webhook operation (Get, Update, Delete, Test,
RotateSecret, GetDeliveries, RetryDelivery) rejects any id not prefixed
"whk_" (including the empty string, since no extension of "" carries that
prefix) with a validation error and no request handed to the executor, and
RetryDelivery additionally rejects any delivery id not prefixed "del_". -/
theorem id_validation_no_network {E : Type}
    (exW exW2 : Except E WebhookAPIResponse) (exDel : Except E Unit)
    (exT : Except E WebhookTestResult) (exR : Except E RotateSecretWire)
    (exDs : Except E (List WebhookDeliveryAPIResponse))
    (exRetry exRetry2 : Except E Unit) (req : UpdateWebhookRequest)
    (id did did2 wid : String)
    (hid : hasPrefix id "whk_" = false)
    (hwid : hasPrefix wid "whk_" = true)
    (hdid : hasPrefix did "del_" = false) :
    WebhooksService.get exW id =
      ⟨none, some (.validation "invalid webhook ID format"), []⟩ ∧
    WebhooksService.update exW2 id req =
      ⟨none, some (.validation "invalid webhook ID format"), []⟩ ∧
    WebhooksService.delete exDel id =
      ⟨some (.validation "invalid webhook ID format"), []⟩ ∧
    WebhooksService.test exT id =
      ⟨none, some (.validation "invalid webhook ID format"), []⟩ ∧
    WebhooksService.rotateSecret exR id =
      ⟨none, some (.validation "invalid webhook ID format"), []⟩ ∧
    WebhooksService.getDeliveries exDs id =
      ⟨none, some (.validation "invalid webhook ID format"), []⟩ ∧
    WebhooksService.retryDelivery exRetry id did2 =
      ⟨some (.validation "invalid webhook ID format"), []⟩ ∧
    WebhooksService.retryDelivery exRetry2 wid did =
      ⟨some (.validation "invalid delivery ID format"), []⟩ := by
  have hne : ¬ wid = "" := by
    intro h
    rw [h] at hwid
    exact absurd hwid (by decide)
  have hcond : ¬ (wid = "" ∨ hasPrefix wid "whk_" = false) := by
    rintro (h | h)
    · exact hne h
    · rw [hwid] at h
      exact absurd h (by decide)
  refine ⟨?_, ?_, ?_, ?_, ?_, ?_, ?_, ?_⟩
  · unfold WebhooksService.get
    rw [if_pos (Or.inr hid)]
  · unfold WebhooksService.update
    rw [if_pos (Or.inr hid)]
  · unfold WebhooksService.delete
    rw [if_pos (Or.inr hid)]
  · unfold WebhooksService.test
    rw [if_pos (Or.inr hid)]
  · unfold WebhooksService.rotateSecret
    rw [if_pos (Or.inr hid)]
  · unfold WebhooksService.getDeliveries
    rw [if_pos (Or.inr hid)]
  · unfold WebhooksService.retryDelivery
    rw [if_pos (Or.inr hid)]
  · unfold WebhooksService.retryDelivery
    rw [if_neg hcond, if_pos (Or.inr hdid)]

/-- Witness for C2 at the empty webhook id and a concrete bad delivery id. -/
theorem id_validation_no_network_witness :
    WebhooksService.get (E := String) (Except.ok sampleWebhookWire) "" =
      ⟨none, some (.validation "invalid webhook ID format"), []⟩ ∧
    WebhooksService.retryDelivery (E := String) (Except.ok ()) "whk_a" "x" =
      ⟨some (.validation "invalid delivery ID format"), []⟩ :=
  ⟨(id_validation_no_network (Except.ok sampleWebhookWire)
      (Except.ok sampleWebhookWire) (Except.ok ()) (Except.ok sampleTestResult)
      (Except.ok sampleRotateWire) (Except.ok []) (Except.ok ())
      (Except.ok ()) sampleUpdateWebhookReq "" "x" "y" "whk_a"
      (by decide) (by decide) (by decide)).1,
   (id_validation_no_network (Except.ok sampleWebhookWire)
      (Except.ok sampleWebhookWire) (Except.ok ()) (Except.ok sampleTestResult)
      (Except.ok sampleRotateWire) (Except.ok []) (Except.ok ())
      (Except.ok ()) sampleUpdateWebhookReq "" "x" "y" "whk_a"
      (by decide) (by decide) (by decide)).2.2.2.2.2.2.2⟩

/-- C3: the wire-to-typed webhook transform is independent of the wire
secret (the typed `Webhook` carries no secret), so Get, List and Update
results do not depend on any secret present in the payload; the one-time
secret is surfaced only in the created-response wrapper built by Create,
whose `secret` field is exactly the wire secret. -/
theorem transform_never_carries_secret :
    (∀ (api : WebhookAPIResponse) (s : String),
      transformWebhook { api with secret := s } = transformWebhook api) ∧
    (∀ (E : Type) (id : String) (api : WebhookAPIResponse) (s : String),
      WebhooksService.get (E := E) (Except.ok api) id =
        WebhooksService.get (Except.ok { api with secret := s }) id) ∧
    (∀ (E : Type) (apis : List WebhookAPIResponse) (s : String),
      WebhooksService.list (E := E) (Except.ok apis) =
        WebhooksService.list
          (Except.ok (apis.map fun a => { a with secret := s }))) ∧
    (∀ (E : Type) (id : String) (req : UpdateWebhookRequest)
        (api : WebhookAPIResponse) (s : String),
      WebhooksService.update (E := E) (Except.ok api) id req =
        WebhooksService.update (Except.ok { api with secret := s }) id req) ∧
    (∀ (E : Type) (req : CreateWebhookRequest) (api : WebhookAPIResponse),
      (WebhooksService.create (E := E) (Except.ok api) req).result.map
          (fun r => r.secret) =
        (WebhooksService.create (E := E) (Except.ok api) req).result.map
          (fun _ => api.secret)) := by
  refine ⟨fun api s => rfl, fun E id api s => ?_, fun E apis s => ?_,
    fun E id req api s => ?_, fun E req api => ?_⟩
  · unfold WebhooksService.get
    split <;> rfl
  · unfold WebhooksService.list
    unfold runSimple
    simp only [List.map_map]
    rfl
  · unfold WebhooksService.update
    split <;> rfl
  · unfold WebhooksService.create
    split <;> try rfl
    split <;> rfl

/-- C4: the transform maps an empty (absent) wire mode to the default "all"
and any non-empty mode to itself, and copies every other field of the
payload unchanged. -/
theorem transform_mode_default_and_passthrough (api : WebhookAPIResponse) :
    (transformWebhook api).mode =
      (if api.mode = "" then "all" else api.mode) ∧
    (transformWebhook api).id = api.id ∧
    (transformWebhook api).url = api.url ∧
    (transformWebhook api).events = api.events ∧
    (transformWebhook api).description = api.description ∧
    (transformWebhook api).isActive = api.isActive ∧
    (transformWebhook api).failureCount = api.failureCount ∧
    (transformWebhook api).lastFailureAt = api.lastFailureAt ∧
    (transformWebhook api).circuitState = api.circuitState ∧
    (transformWebhook api).circuitOpenedAt = api.circuitOpenedAt ∧
    (transformWebhook api).apiVersion = api.apiVersion ∧
    (transformWebhook api).metadata = api.metadata ∧
    (transformWebhook api).createdAt = api.createdAt ∧
    (transformWebhook api).updatedAt = api.updatedAt ∧
    (transformWebhook api).totalDeliveries = api.totalDeliveries ∧
    (transformWebhook api).successfulDeliveries =
      api.successfulDeliveries ∧
    (transformWebhook api).successRate = api.successRate ∧
    (transformWebhook api).lastDeliveryAt = api.lastDeliveryAt :=
  ⟨rfl, rfl, rfl, rfl, rfl, rfl, rfl, rfl, rfl, rfl, rfl, rfl, rfl, rfl,
   rfl, rfl, rfl, rfl⟩

/-- C5: the List request path is a pure function of the options: no options
or zero/empty options give "/verify" with no query string; a positive limit
alone gives "?limit=10"; a status alone gives "?status=pending"; both set
give both parameters; and the issued request always uses exactly this
path. -/
theorem verify_list_query_encoding :
    VerifyService.listPath none = "/verify" ∧
    VerifyService.listPath (some ⟨0, ""⟩) = "/verify" ∧
    VerifyService.listPath (some ⟨10, ""⟩) = "/verify?limit=10" ∧
    VerifyService.listPath (some ⟨0, "pending"⟩) = "/verify?status=pending" ∧
    VerifyService.listPath (some ⟨10, "pending"⟩) =
      "/verify?limit=10&status=pending" ∧
    (∀ (E : Type) (exec : Except E VerificationListResponse)
        (opts : Option VerificationListOptions),
      (VerifyService.list exec opts).calls =
        [⟨"GET", VerifyService.listPath opts, none⟩]) := by
  refine ⟨by decide, by decide, by decide, by decide, by decide, ?_⟩
  intro E exec opts
  cases exec <;> rfl

/-- C6: the Preview body omits the "variables" key entirely when the
variables map is nil, contains it bound to the explicit empty mapping when
the map is non-nil but empty (and to the map itself in general), and the
issued request carries exactly this body. -/
theorem preview_nil_vs_empty_variables :
    (previewBody none).lookup "variables" = none ∧
    (previewBody (some [])).lookup "variables" = some [] ∧
    (∀ m, (previewBody (some m)).lookup "variables" = some m) ∧
    (∀ (E : Type) (exec : Except E TemplatePreview) (id : String)
        (vars : Option (List (String × String))),
      (TemplatesService.preview exec id vars).calls =
        [⟨"POST", "/templates/" ++ id ++ "/preview",
          some (previewBody vars)⟩]) := by
  refine ⟨rfl, rfl, fun m => rfl, fun E exec id vars => ?_⟩
  cases exec <;> rfl

/-- C7 counterexample: a template Update request that supplies Name with the
empty-string value produces a body with no "name" key at all, refuting the
claim that a supplied empty-string field appears in the encoded body. -/
theorem update_template_supplied_empty_field_omitted :
    (encodeUpdateTemplateRequest { name := "", text := "hello" }).lookup
      "name" = none ∧
    encodeUpdateTemplateRequest { name := "", text := "hello" } =
      [("text", "hello")] := by
  exact ⟨rfl, rfl⟩

/-- C7 (amended): the encoded template Update body contains a field exactly
when its value is non-empty — an absent field is omitted rather than sent as
null, but a field supplied with the empty string is also omitted, because
both fields are plain strings tagged omitempty; the request body handed to
the executor is the request value itself. -/
theorem update_template_omitempty_encoding (r : UpdateTemplateRequest) :
    ((encodeUpdateTemplateRequest r).lookup "name" =
      if r.name = "" then none else some r.name) ∧
    ((encodeUpdateTemplateRequest r).lookup "text" =
      if r.text = "" then none else some r.text) ∧
    (∀ (E : Type) (exec : Except E Template) (id : String),
      (TemplatesService.update exec id r).calls =
        [⟨"PATCH", "/templates/" ++ id, some r⟩]) := by
  refine ⟨?_, ?_, fun E exec id => by cases exec <;> rfl⟩
  · by_cases hn : r.name = "" <;> by_cases ht : r.text = "" <;>
      simp [encodeUpdateTemplateRequest, List.lookup, hn, ht]
  · by_cases hn : r.name = "" <;> by_cases ht : r.text = "" <;>
      simp [encodeUpdateTemplateRequest, List.lookup, hn, ht]

/-- C8 counterexample: RotateSecret succeeds (no error, a result is
returned) on a wire response whose new_secret is empty, and the returned
NewSecret is the empty string - the client performs no non-empty check. -/
theorem rotate_secret_empty_new_secret :
    ((WebhooksService.rotateSecret (E := String)
        (Except.ok sampleRotateWireEmptySecret) "whk_1").result.map
      (fun r => r.newSecret)) = some "" ∧
    (WebhooksService.rotateSecret (E := String)
      (Except.ok sampleRotateWireEmptySecret) "whk_1").error = none := by
  exact ⟨rfl, rfl⟩

/-- C8 (amended): whenever RotateSecret returns a result, the executor
succeeded and the result's NewSecret (and old-secret expiry) are exactly the
wire new_secret and old_secret_expires_at, verbatim - so NewSecret is
non-empty exactly when the server returned a non-empty new_secret. -/
theorem rotate_secret_new_secret_passthrough {E : Type}
    (exec : Except E RotateSecretWire) (id : String)
    (r : WebhookSecretRotation)
    (h : (WebhooksService.rotateSecret exec id).result = some r) :
    ∃ raw, exec = Except.ok raw ∧ r.newSecret = raw.newSecret ∧
      r.oldSecretExpiresAt = raw.oldSecretExpiresAt := by
  unfold WebhooksService.rotateSecret at h
  by_cases hv : id = "" ∨ hasPrefix id "whk_" = false
  · rw [if_pos hv] at h
    exact absurd h (by simp)
  · rw [if_neg hv] at h
    cases exec with
    | error e => exact absurd h (by simp [runSimple])
    | ok raw =>
      simp only [runSimple, Option.some.injEq] at h
      exact ⟨raw, rfl, by rw [← h], by rw [← h]⟩

/-- Witness for the amended C8 at a concrete rotation response. -/
theorem rotate_secret_new_secret_passthrough_witness :
    ∃ raw, (Except.ok sampleRotateWire : Except String RotateSecretWire) =
        Except.ok raw ∧
      (WebhookSecretRotation.mk (transformWebhook sampleWebhookWire) "s_new"
        "2024-02-01" "rotated").newSecret = raw.newSecret ∧
      (WebhookSecretRotation.mk (transformWebhook sampleWebhookWire) "s_new"
        "2024-02-01" "rotated").oldSecretExpiresAt = raw.oldSecretExpiresAt :=
  rotate_secret_new_secret_passthrough (Except.ok sampleRotateWire) "whk_1"
    ⟨transformWebhook sampleWebhookWire, "s_new", "2024-02-01", "rotated"⟩
    (by decide)

/-- C9: every operation is all-or-nothing at its interface and swallows no
error: each result-returning operation either yields a result with a nil
error or no result with an error, for every executor behaviour and every
input; and whenever the executor reports an error, the operation returns
exactly that error as a transport error with no result — unless local
validation already failed, in which case the executor was never invoked (no
request recorded) and the validation error is returned; the error-only
operations likewise report a nil error only when the executor succeeded and
propagate any executor error verbatim. -/
theorem all_or_nothing {E : Type}
    (exCreate exGet exUpd : Except E WebhookAPIResponse)
    (exListW : Except E (List WebhookAPIResponse))
    (exDelW exRetry exDelT : Except E Unit)
    (exTest : Except E WebhookTestResult)
    (exRot : Except E RotateSecretWire)
    (exDeliv : Except E (List WebhookDeliveryAPIResponse))
    (exEvt : Except E EventTypesWire)
    (exSend exResend : Except E SendVerificationResponse)
    (exCheck : Except E CheckVerificationResponse)
    (exGetV : Except E Verification)
    (exListV : Except E VerificationListResponse)
    (exSessC : Except E VerifySession)
    (exSessV : Except E ValidateSessionResponse)
    (exTL exTP : Except E TemplateListResponse)
    (exTG exTC exTU exTPub : Except E Template)
    (exPrev : Except E TemplatePreview)
    (reqC : CreateWebhookRequest) (reqU : UpdateWebhookRequest)
    (wid did vid tid : String)
    (reqS : SendVerificationRequest) (reqCh : CheckVerificationRequest)
    (opts : Option VerificationListOptions)
    (reqSess : CreateSessionRequest) (reqVal : ValidateSessionRequest)
    (reqTC : CreateTemplateRequest) (reqTU : UpdateTemplateRequest)
    (vars : Option (List (String × String))) :
    (((WebhooksService.delete exDelW wid).error = none →
        exDelW = Except.ok ()) ∧
      (∀ e, exDelW = Except.error e →
        returnsErrorVoid (WebhooksService.delete exDelW wid) e)) ∧
    (((WebhooksService.retryDelivery exRetry wid did).error = none →
        exRetry = Except.ok ()) ∧
      (∀ e, exRetry = Except.error e →
        returnsErrorVoid (WebhooksService.retryDelivery exRetry wid did) e)) ∧
    (((TemplatesService.delete exDelT tid).error = none →
        exDelT = Except.ok ()) ∧
      (∀ e, exDelT = Except.error e →
        returnsErrorVoid (TemplatesService.delete exDelT tid) e)) ∧
    (allOrNothing (WebhooksService.create exCreate reqC) ∧
      (∀ e, exCreate = Except.error e →
        (WebhooksService.create exCreate reqC).result = none ∧
        returnsError (WebhooksService.create exCreate reqC) e)) ∧
    (allOrNothing (WebhooksService.list exListW) ∧
      (∀ e, exListW = Except.error e →
        (WebhooksService.list exListW).result = none ∧
        returnsError (WebhooksService.list exListW) e)) ∧
    (allOrNothing (WebhooksService.get exGet wid) ∧
      (∀ e, exGet = Except.error e →
        (WebhooksService.get exGet wid).result = none ∧
        returnsError (WebhooksService.get exGet wid) e)) ∧
    (allOrNothing (WebhooksService.update exUpd wid reqU) ∧
      (∀ e, exUpd = Except.error e →
        (WebhooksService.update exUpd wid reqU).result = none ∧
        returnsError (WebhooksService.update exUpd wid reqU) e)) ∧
    (allOrNothing (WebhooksService.test exTest wid) ∧
      (∀ e, exTest = Except.error e →
        (WebhooksService.test exTest wid).result = none ∧
        returnsError (WebhooksService.test exTest wid) e)) ∧
    (allOrNothing (WebhooksService.rotateSecret exRot wid) ∧
      (∀ e, exRot = Except.error e →
        (WebhooksService.rotateSecret exRot wid).result = none ∧
        returnsError (WebhooksService.rotateSecret exRot wid) e)) ∧
    (allOrNothing (WebhooksService.getDeliveries exDeliv wid) ∧
      (∀ e, exDeliv = Except.error e →
        (WebhooksService.getDeliveries exDeliv wid).result = none ∧
        returnsError (WebhooksService.getDeliveries exDeliv wid) e)) ∧
    (allOrNothing (WebhooksService.listEventTypes exEvt) ∧
      (∀ e, exEvt = Except.error e →
        (WebhooksService.listEventTypes exEvt).result = none ∧
        returnsError (WebhooksService.listEventTypes exEvt) e)) ∧
    (allOrNothing (VerifyService.send exSend reqS) ∧
      (∀ e, exSend = Except.error e →
        (VerifyService.send exSend reqS).result = none ∧
        returnsError (VerifyService.send exSend reqS) e)) ∧
    (allOrNothing (VerifyService.resend exResend vid) ∧
      (∀ e, exResend = Except.error e →
        (VerifyService.resend exResend vid).result = none ∧
        returnsError (VerifyService.resend exResend vid) e)) ∧
    (allOrNothing (VerifyService.check exCheck vid reqCh) ∧
      (∀ e, exCheck = Except.error e →
        (VerifyService.check exCheck vid reqCh).result = none ∧
        returnsError (VerifyService.check exCheck vid reqCh) e)) ∧
    (allOrNothing (VerifyService.get exGetV vid) ∧
      (∀ e, exGetV = Except.error e →
        (VerifyService.get exGetV vid).result = none ∧
        returnsError (VerifyService.get exGetV vid) e)) ∧
    (allOrNothing (VerifyService.list exListV opts) ∧
      (∀ e, exListV = Except.error e →
        (VerifyService.list exListV opts).result = none ∧
        returnsError (VerifyService.list exListV opts) e)) ∧
    (allOrNothing (SessionsService.create exSessC reqSess) ∧
      (∀ e, exSessC = Except.error e →
        (SessionsService.create exSessC reqSess).result = none ∧
        returnsError (SessionsService.create exSessC reqSess) e)) ∧
    (allOrNothing (SessionsService.validate exSessV reqVal) ∧
      (∀ e, exSessV = Except.error e →
        (SessionsService.validate exSessV reqVal).result = none ∧
        returnsError (SessionsService.validate exSessV reqVal) e)) ∧
    (allOrNothing (TemplatesService.list exTL) ∧
      (∀ e, exTL = Except.error e →
        (TemplatesService.list exTL).result = none ∧
        returnsError (TemplatesService.list exTL) e)) ∧
    (allOrNothing (TemplatesService.presets exTP) ∧
      (∀ e, exTP = Except.error e →
        (TemplatesService.presets exTP).result = none ∧
        returnsError (TemplatesService.presets exTP) e)) ∧
    (allOrNothing (TemplatesService.get exTG tid) ∧
      (∀ e, exTG = Except.error e →
        (TemplatesService.get exTG tid).result = none ∧
        returnsError (TemplatesService.get exTG tid) e)) ∧
    (allOrNothing (TemplatesService.create exTC reqTC) ∧
      (∀ e, exTC = Except.error e →
        (TemplatesService.create exTC reqTC).result = none ∧
        returnsError (TemplatesService.create exTC reqTC) e)) ∧
    (allOrNothing (TemplatesService.update exTU tid reqTU) ∧
      (∀ e, exTU = Except.error e →
        (TemplatesService.update exTU tid reqTU).result = none ∧
        returnsError (TemplatesService.update exTU tid reqTU) e)) ∧
    (allOrNothing (TemplatesService.publish exTPub tid) ∧
      (∀ e, exTPub = Except.error e →
        (TemplatesService.publish exTPub tid).result = none ∧
        returnsError (TemplatesService.publish exTPub tid) e)) ∧
    (allOrNothing (TemplatesService.preview exPrev tid vars) ∧
      (∀ e, exPrev = Except.error e →
        (TemplatesService.preview exPrev tid vars).result = none ∧
        returnsError (TemplatesService.preview exPrev tid vars) e)) := by
  refine ⟨?_, ?_, ?_, ?_, ?_, ?_, ?_, ?_, ?_, ?_, ?_, ?_, ?_, ?_, ?_, ?_,
    ?_, ?_, ?_, ?_, ?_, ?_, ?_, ?_, ?_⟩
  · constructor
    · intro h
      unfold WebhooksService.delete at h
      split at h
      · simp at h
      · cases exDelW with
        | error e => simp [runVoid] at h
        | ok u => cases u; rfl
    · rintro e rfl
      unfold WebhooksService.delete returnsErrorVoid
      split
      · exact Or.inr ⟨rfl, _, rfl⟩
      · exact Or.inl rfl
  · constructor
    · intro h
      unfold WebhooksService.retryDelivery at h
      split at h
      · simp at h
      · split at h
        · simp at h
        · cases exRetry with
          | error e => simp [runVoid] at h
          | ok u => cases u; rfl
    · rintro e rfl
      unfold WebhooksService.retryDelivery returnsErrorVoid
      split
      · exact Or.inr ⟨rfl, _, rfl⟩
      · split
        · exact Or.inr ⟨rfl, _, rfl⟩
        · exact Or.inl rfl
  · constructor
    · intro h
      unfold TemplatesService.delete at h
      cases exDelT with
      | error e => simp [runVoid] at h
      | ok u => cases u; rfl
    · rintro e rfl
      unfold returnsErrorVoid
      exact Or.inl rfl
  · constructor
    · unfold WebhooksService.create
      split
      · exact allOrNothing_validationFail _ _
      · split
        · exact allOrNothing_validationFail _ _
        · exact allOrNothing_runSimple _ _ _
    · rintro e rfl
      unfold WebhooksService.create returnsError
      split
      · exact ⟨rfl, Or.inr ⟨rfl, _, rfl⟩⟩
      · split
        · exact ⟨rfl, Or.inr ⟨rfl, _, rfl⟩⟩
        · exact ⟨rfl, Or.inl rfl⟩
  · constructor
    · exact allOrNothing_runSimple _ _ _
    · rintro e rfl
      unfold returnsError
      exact ⟨rfl, Or.inl rfl⟩
  · constructor
    · unfold WebhooksService.get
      split
      · exact allOrNothing_validationFail _ _
      · exact allOrNothing_runSimple _ _ _
    · rintro e rfl
      unfold WebhooksService.get returnsError
      split
      · exact ⟨rfl, Or.inr ⟨rfl, _, rfl⟩⟩
      · exact ⟨rfl, Or.inl rfl⟩
  · constructor
    · unfold WebhooksService.update
      split
      · exact allOrNothing_validationFail _ _
      · split
        · exact allOrNothing_validationFail _ _
        · exact allOrNothing_runSimple _ _ _
    · rintro e rfl
      unfold WebhooksService.update returnsError
      split
      · exact ⟨rfl, Or.inr ⟨rfl, _, rfl⟩⟩
      · split
        · exact ⟨rfl, Or.inr ⟨rfl, _, rfl⟩⟩
        · exact ⟨rfl, Or.inl rfl⟩
  · constructor
    · unfold WebhooksService.test
      split
      · exact allOrNothing_validationFail _ _
      · exact allOrNothing_runSimple _ _ _
    · rintro e rfl
      unfold WebhooksService.test returnsError
      split
      · exact ⟨rfl, Or.inr ⟨rfl, _, rfl⟩⟩
      · exact ⟨rfl, Or.inl rfl⟩
  · constructor
    · unfold WebhooksService.rotateSecret
      split
      · exact allOrNothing_validationFail _ _
      · exact allOrNothing_runSimple _ _ _
    · rintro e rfl
      unfold WebhooksService.rotateSecret returnsError
      split
      · exact ⟨rfl, Or.inr ⟨rfl, _, rfl⟩⟩
      · exact ⟨rfl, Or.inl rfl⟩
  · constructor
    · unfold WebhooksService.getDeliveries
      split
      · exact allOrNothing_validationFail _ _
      · exact allOrNothing_runSimple _ _ _
    · rintro e rfl
      unfold WebhooksService.getDeliveries returnsError
      split
      · exact ⟨rfl, Or.inr ⟨rfl, _, rfl⟩⟩
      · exact ⟨rfl, Or.inl rfl⟩
  · constructor
    · exact allOrNothing_runSimple _ _ _
    · rintro e rfl
      unfold returnsError
      exact ⟨rfl, Or.inl rfl⟩
  · constructor
    · exact allOrNothing_runSimple _ _ _
    · rintro e rfl
      unfold returnsError
      exact ⟨rfl, Or.inl rfl⟩
  · constructor
    · exact allOrNothing_runSimple _ _ _
    · rintro e rfl
      unfold returnsError
      exact ⟨rfl, Or.inl rfl⟩
  · constructor
    · exact allOrNothing_runSimple _ _ _
    · rintro e rfl
      unfold returnsError
      exact ⟨rfl, Or.inl rfl⟩
  · constructor
    · exact allOrNothing_runSimple _ _ _
    · rintro e rfl
      unfold returnsError
      exact ⟨rfl, Or.inl rfl⟩
  · constructor
    · exact allOrNothing_runSimple _ _ _
    · rintro e rfl
      unfold returnsError
      exact ⟨rfl, Or.inl rfl⟩
  · constructor
    · exact allOrNothing_runSimple _ _ _
    · rintro e rfl
      unfold returnsError
      exact ⟨rfl, Or.inl rfl⟩
  · constructor
    · exact allOrNothing_runSimple _ _ _
    · rintro e rfl
      unfold returnsError
      exact ⟨rfl, Or.inl rfl⟩
  · constructor
    · exact allOrNothing_runSimple _ _ _
    · rintro e rfl
      unfold returnsError
      exact ⟨rfl, Or.inl rfl⟩
  · constructor
    · exact allOrNothing_runSimple _ _ _
    · rintro e rfl
      unfold returnsError
      exact ⟨rfl, Or.inl rfl⟩
  · constructor
    · exact allOrNothing_runSimple _ _ _
    · rintro e rfl
      unfold returnsError
      exact ⟨rfl, Or.inl rfl⟩
  · constructor
    · exact allOrNothing_runSimple _ _ _
    · rintro e rfl
      unfold returnsError
      exact ⟨rfl, Or.inl rfl⟩
  · constructor
    · exact allOrNothing_runSimple _ _ _
    · rintro e rfl
      unfold returnsError
      exact ⟨rfl, Or.inl rfl⟩
  · constructor
    · exact allOrNothing_runSimple _ _ _
    · rintro e rfl
      unfold returnsError
      exact ⟨rfl, Or.inl rfl⟩
  · constructor
    · exact allOrNothing_runSimple _ _ _
    · rintro e rfl
      unfold returnsError
      exact ⟨rfl, Or.inl rfl⟩

/-- Witness for C9: a concrete create whose executor fails returns that
transport error with no result, and a concrete succeeding delete implies its
executor succeeded. -/
theorem all_or_nothing_witness :
    allOrNothing (WebhooksService.create (E := String) (Except.error "boom")
      goodCreateReq) ∧
    (WebhooksService.create (E := String) (Except.error "boom")
      goodCreateReq).error = some (.transport "boom") ∧
    (Except.ok () : Except String Unit) = Except.ok () := by
  have h := all_or_nothing (E := String)
    (Except.error "boom") (Except.error "x") (Except.error "x")
    (Except.error "x")
    (Except.ok ()) (Except.error "x") (Except.error "x")
    (Except.error "x") (Except.error "x") (Except.error "x")
    (Except.error "x")
    (Except.error "x") (Except.error "x") (Except.error "x")
    (Except.error "x") (Except.error "x")
    (Except.error "x") (Except.error "x")
    (Except.error "x") (Except.error "x") (Except.error "x")
    (Except.error "x") (Except.error "x") (Except.error "x")
    (Except.error "x")
    goodCreateReq sampleUpdateWebhookReq "whk_a" "del_a" "v_1" "tpl_1"
    sampleSendReq sampleCheckReq none sampleSessionReq sampleValidateReq
    sampleCreateTemplateReq sampleUpdateTemplateReq none
  obtain ⟨-, hp⟩ := h.2.2.2.1.2 "boom" rfl
  unfold returnsError at hp
  rcases hp with hp | hbad
  · exact ⟨h.2.2.2.1.1, hp, h.1.1 (by decide)⟩
  · exact absurd hbad.1 (by decide)

/-- C10: the id-taking operations of VerifyService (Resend, Check, Get) and
TemplatesService (Get, Update, Publish, Preview, Delete) perform no local id
validation: for every id, including the empty string, they issue exactly one
request with the id interpolated into the path, and any error they return is
a transport error, never a validation error. -/
theorem no_id_validation_verify_and_templates {E : Type}
    (exResend : Except E SendVerificationResponse)
    (exCheck : Except E CheckVerificationResponse)
    (exGetV : Except E Verification)
    (exTG exTU exTPub : Except E Template)
    (exPrev : Except E TemplatePreview)
    (exDelT : Except E Unit)
    (vid tid : String) (reqCh : CheckVerificationRequest)
    (reqTU : UpdateTemplateRequest)
    (vars : Option (List (String × String))) :
    ((VerifyService.resend exResend vid).calls =
        [⟨"POST", "/verify/" ++ vid ++ "/resend", none⟩] ∧
      ((VerifyService.resend exResend vid).error = none ∨
        ∃ e, (VerifyService.resend exResend vid).error =
          some (.transport e))) ∧
    ((VerifyService.check exCheck vid reqCh).calls =
        [⟨"POST", "/verify/" ++ vid ++ "/check", some reqCh⟩] ∧
      ((VerifyService.check exCheck vid reqCh).error = none ∨
        ∃ e, (VerifyService.check exCheck vid reqCh).error =
          some (.transport e))) ∧
    ((VerifyService.get exGetV vid).calls =
        [⟨"GET", "/verify/" ++ vid, none⟩] ∧
      ((VerifyService.get exGetV vid).error = none ∨
        ∃ e, (VerifyService.get exGetV vid).error = some (.transport e))) ∧
    ((TemplatesService.get exTG tid).calls =
        [⟨"GET", "/templates/" ++ tid, none⟩] ∧
      ((TemplatesService.get exTG tid).error = none ∨
        ∃ e, (TemplatesService.get exTG tid).error = some (.transport e))) ∧
    ((TemplatesService.update exTU tid reqTU).calls =
        [⟨"PATCH", "/templates/" ++ tid, some reqTU⟩] ∧
      ((TemplatesService.update exTU tid reqTU).error = none ∨
        ∃ e, (TemplatesService.update exTU tid reqTU).error =
          some (.transport e))) ∧
    ((TemplatesService.publish exTPub tid).calls =
        [⟨"POST", "/templates/" ++ tid ++ "/publish", none⟩] ∧
      ((TemplatesService.publish exTPub tid).error = none ∨
        ∃ e, (TemplatesService.publish exTPub tid).error =
          some (.transport e))) ∧
    ((TemplatesService.preview exPrev tid vars).calls =
        [⟨"POST", "/templates/" ++ tid ++ "/preview",
          some (previewBody vars)⟩] ∧
      ((TemplatesService.preview exPrev tid vars).error = none ∨
        ∃ e, (TemplatesService.preview exPrev tid vars).error =
          some (.transport e))) ∧
    ((TemplatesService.delete exDelT tid).calls =
        [⟨"DELETE", "/templates/" ++ tid, none⟩] ∧
      ((TemplatesService.delete exDelT tid).error = none ∨
        ∃ e, (TemplatesService.delete exDelT tid).error =
          some (.transport e))) := by
  refine ⟨?_, ?_, ?_, ?_, ?_, ?_, ?_, ?_⟩
  · cases exResend with
    | error e => exact ⟨rfl, Or.inr ⟨e, rfl⟩⟩
    | ok r => exact ⟨rfl, Or.inl rfl⟩
  · cases exCheck with
    | error e => exact ⟨rfl, Or.inr ⟨e, rfl⟩⟩
    | ok r => exact ⟨rfl, Or.inl rfl⟩
  · cases exGetV with
    | error e => exact ⟨rfl, Or.inr ⟨e, rfl⟩⟩
    | ok r => exact ⟨rfl, Or.inl rfl⟩
  · cases exTG with
    | error e => exact ⟨rfl, Or.inr ⟨e, rfl⟩⟩
    | ok r => exact ⟨rfl, Or.inl rfl⟩
  · cases exTU with
    | error e => exact ⟨rfl, Or.inr ⟨e, rfl⟩⟩
    | ok r => exact ⟨rfl, Or.inl rfl⟩
  · cases exTPub with
    | error e => exact ⟨rfl, Or.inr ⟨e, rfl⟩⟩
    | ok r => exact ⟨rfl, Or.inl rfl⟩
  · cases exPrev with
    | error e => exact ⟨rfl, Or.inr ⟨e, rfl⟩⟩
    | ok r => exact ⟨rfl, Or.inl rfl⟩
  · cases exDelT with
    | error e => exact ⟨rfl, Or.inr ⟨e, rfl⟩⟩
    | ok r => exact ⟨rfl, Or.inl rfl⟩

end Sendly
